import Mathlib

/-!
Verification of the BlackRoad logistics planner (`src/logistics_planner.py`)
against its natural-language specification.

The Python module is shallowly embedded:
* the SQLite `shipments` table becomes a `List Shipment` threaded through the
  mutating operations (state passing);
* timestamps (`datetime`, ISO-8601 strings) become `ℤ` counts of seconds, so
  `timedelta(days = d)` is `d * secondsPerDay` and lexicographic comparison of
  ISO strings is integer comparison;
* Python `float` arithmetic on statistics is idealised as exact `ℚ`
  arithmetic, and the trigonometric route computation as exact `ℝ` arithmetic;
* `round(x, 1)` is modelled by `round1` (round half up to one decimal);
* operations that raise `ValueError` return `Except String`;
* Python truthiness tests on optional strings (`if status:`) are modelled
  explicitly, so `None` and `""` both fail the test.
-/

namespace LogisticsPlanner

/-- `SHIPMENT_STATUSES` from the source: the fixed status enumeration. -/
def SHIPMENT_STATUSES : List String :=
  ["pending", "picked_up", "in_transit", "out_for_delivery", "delivered", "exception"]

/-- `PRIORITIES` from the source: the fixed priority enumeration. -/
def PRIORITIES : List String := ["standard", "express", "overnight"]

/-- `CARRIERS` from the source: the fixed carrier enumeration. -/
def CARRIERS : List String := ["fedex", "ups", "usps", "dhl", "blackroad-express"]

/-- `CITY_COORDS` from the source: the fixed 20-entry table of
city code ↦ (latitude, longitude) in decimal degrees. -/
def CITY_COORDS : List (String × ℚ × ℚ) :=
  [("NYC", (40.7128, -74.0060)),
   ("LAX", (34.0522, -118.2437)),
   ("CHI", (41.8781, -87.6298)),
   ("HOU", (29.7604, -95.3698)),
   ("PHX", (33.4484, -112.0742)),
   ("PHI", (39.9526, -75.1652)),
   ("SAN", (32.7157, -117.1611)),
   ("DAL", (32.7767, -96.7970)),
   ("SJC", (37.3382, -121.8863)),
   ("AUS", (30.2672, -97.7431)),
   ("DEN", (39.7392, -104.9903)),
   ("ATL", (33.7490, -84.3880)),
   ("BOS", (42.3601, -71.0589)),
   ("MIA", (25.7617, -80.1918)),
   ("SEA", (47.6062, -122.3321)),
   ("POR", (45.5152, -122.6784)),
   ("MIN", (44.9778, -93.2650)),
   ("DET", (42.3314, -83.0458)),
   ("CLE", (41.4993, -81.6944)),
   ("STL", (38.6270, -90.1994))]

/-- Number of seconds in a day; `timedelta(days = d)` is `d * secondsPerDay`. -/
def secondsPerDay : ℤ := 86400

/-- The `Shipment` dataclass from the source.  `eta`, `carrier` and
`tracking_id` are `None` until carrier assignment. -/
structure Shipment where
  id : String
  origin : String
  destination : String
  weight_kg : ℚ
  priority : String
  status : String
  eta : Option ℤ
  carrier : Option String
  tracking_id : Option String
  created_at : ℤ
  deriving DecidableEq, Repr

/-- Python `round(q, 1)`: one decimal, modelled as round half up. -/
def round1 (q : ℚ) : ℚ := ((Int.floor (q * 10 + 1 / 2) : ℤ) : ℚ) / 10

/-- The record built by `create_shipment` before insertion: status `pending`,
optional fields absent, `created_at` the current time.  The fresh id is a
parameter because the source delegates id generation to `uuid.uuid4()`. -/
def mkShipment (origin destination : String) (weight_kg : ℚ) (priority newId : String)
    (now : ℤ) : Shipment :=
  { id := newId, origin := origin, destination := destination, weight_kg := weight_kg,
    priority := priority, status := "pending", eta := none, carrier := none,
    tracking_id := none, created_at := now }

/-- `LogisticsPlanner.create_shipment`: validate the priority, then insert one
new row.  Raising `ValueError` before the write is modelled by returning
`Except.error` (no new state). -/
def create_shipment (db : List Shipment) (origin destination : String) (weight_kg : ℚ)
    (priority newId : String) (now : ℤ) : Except String (List Shipment) :=
  if priority ∈ PRIORITIES then
    .ok (db ++ [mkShipment origin destination weight_kg priority newId now])
  else
    .error "Invalid priority"

/-- The state after running `create_shipment`: on error the table is the one
from before the call. -/
def runCreate (db : List Shipment) (origin destination : String) (weight_kg : ℚ)
    (priority newId : String) (now : ℤ) : List Shipment :=
  match create_shipment db origin destination weight_kg priority newId now with
  | .ok db2 => db2
  | .error _ => db

/-- The per-row effect of the `UPDATE` in `assign_carrier`: rows whose `id`
matches get carrier, tracking id, eta and status `picked_up`; others are
untouched. -/
def assignUpd (sid carrier tracking_id : String) (eta : ℤ) (s : Shipment) : Shipment :=
  if s.id = sid then
    { s with carrier := some carrier, tracking_id := some tracking_id,
             eta := some eta, status := "picked_up" }
  else s

/-- `LogisticsPlanner.assign_carrier`: validate the carrier, compute
`eta = now + eta_days` days, and update the matching row (all rows with the
given id; ids are unique in practice).  A missing id simply updates nothing. -/
def assign_carrier (db : List Shipment) (sid carrier tracking_id : String)
    (eta_days now : ℤ) : Except String (List Shipment) :=
  if carrier ∈ CARRIERS then
    .ok (db.map (assignUpd sid carrier tracking_id (now + eta_days * secondsPerDay)))
  else
    .error "Invalid carrier"

/-- The per-row effect of the `UPDATE` in `update_status`. -/
def statusUpd (sid status : String) (s : Shipment) : Shipment :=
  if s.id = sid then { s with status := status } else s

/-- `LogisticsPlanner.update_status`: validate the status, then update only the
status column of the matching row.  A missing id updates nothing. -/
def update_status (db : List Shipment) (sid status : String) :
    Except String (List Shipment) :=
  if status ∈ SHIPMENT_STATUSES then
    .ok (db.map (statusUpd sid status))
  else
    .error "Invalid status"

/-- The `WHERE` clause built by `get_shipments`: a filter is applied only when
the Python value is truthy, i.e. not `None` and not the empty string. -/
def filterMatch (status priority : Option String) (s : Shipment) : Bool :=
  (match status with
   | some x => if x == "" then true else s.status == x
   | none => true) &&
  (match priority with
   | some x => if x == "" then true else s.priority == x
   | none => true)

/-- `ORDER BY created_at DESC` as a relation on rows. -/
def createdDesc (a b : Shipment) : Prop := b.created_at ≤ a.created_at

instance : DecidableRel createdDesc := fun _ _ => Int.decLe _ _

instance : IsTotal Shipment createdDesc :=
  ⟨fun a b => le_total b.created_at a.created_at⟩

instance : IsTrans Shipment createdDesc :=
  ⟨fun _ _ _ h1 h2 => le_trans h2 h1⟩

/-- `LogisticsPlanner.get_shipments`: filter by the truthy filters, then order
by `created_at` descending. -/
def get_shipments (db : List Shipment) (status priority : Option String) :
    List Shipment :=
  List.insertionSort createdDesc (db.filter (filterMatch status priority))

/-- The resolution loop of `optimize_batch` (SELECT by id, `fetchone`, keep the
rows that exist): requested ids are resolved in order, missing ids are
silently skipped. -/
def getByIds (db : List Shipment) (ids : List String) : List Shipment :=
  ids.filterMap (fun sid => db.find? (fun s => s.id == sid))

/-- Appending a record to the list stored under key `k` in a Python dict,
inserting the key at the end when absent (dict insertion order). -/
def upsertGroup (m : List (String × List Shipment)) (k : String) (s : Shipment) :
    List (String × List Shipment) :=
  match m with
  | [] => [(k, [s])]
  | (k2, l) :: rest =>
      if k2 = k then (k2, l ++ [s]) :: rest else (k2, l) :: upsertGroup rest k s

/-- One iteration of a grouping loop: a shipment whose key is present
(`key s = some k`) is appended to its group, others are skipped. -/
def groupStep (key : Shipment → Option String)
    (m : List (String × List Shipment)) (s : Shipment) :
    List (String × List Shipment) :=
  match key s with
  | some k => upsertGroup m k s
  | none => m

/-- The grouping loops of the source: walk the shipments in order and append
each shipment whose key is present to its group. -/
def buildGroups (key : Shipment → Option String) (l : List Shipment) :
    List (String × List Shipment) :=
  l.foldl (groupStep key) []

/-- The key used by `if s.carrier:` in the source: the carrier when it is set
and truthy (non-empty), nothing otherwise. -/
def carrierKey (s : Shipment) : Option String :=
  match s.carrier with
  | some c => if c = "" then none else some c
  | none => none

/-- Replace each group by its size (the `len(ships)` comprehension). -/
def groupCounts (g : List (String × List Shipment)) : List (String × Nat) :=
  g.map (fun p => (p.1, p.2.length))

/-- The dictionary returned by `optimize_batch`. -/
structure BatchSummary where
  total_shipments : Nat
  by_carrier : List (String × Nat)
  by_priority : List (String × Nat)
  deriving DecidableEq, Repr

/-- `LogisticsPlanner.optimize_batch`: resolve the requested ids, group the
resolved records by carrier (records with no truthy carrier excluded) and by
priority (all records), and report counts. -/
def optimize_batch (db : List Shipment) (ids : List String) : BatchSummary :=
  let shipments := getByIds db ids
  { total_shipments := shipments.length,
    by_carrier := groupCounts (buildGroups carrierKey shipments),
    by_priority := groupCounts (buildGroups (fun s => some s.priority) shipments) }

/-- The on-time test in `delivery_stats`: the shipment has an eta and the eta
has not yet passed (`eta_time >= datetime.utcnow()`). -/
def onTimePred (now : ℤ) (s : Shipment) : Bool :=
  match s.eta with
  | some t => decide (now ≤ t)
  | none => false

/-- `(eta_time - created).days` for a shipment with an eta: Python
`timedelta.days` floors towards negative infinity, hence `Int.fdiv`. -/
def transitDays (s : Shipment) : Option ℤ :=
  s.eta.map (fun t => Int.fdiv (t - s.created_at) secondsPerDay)

/-- The dictionary returned by `delivery_stats`.  `by_carrier` maps each
carrier to its `delivery_rate`. -/
structure StatsSummary where
  total_shipments : Nat
  delivered : Nat
  in_exception : Nat
  on_time_rate_pct : ℚ
  avg_transit_days : ℚ
  by_carrier : List (String × ℚ)
  deriving DecidableEq, Repr

/-- `LogisticsPlanner.delivery_stats` over the full table, evaluated at time
`now` (`datetime.utcnow()`). -/
def delivery_stats (db : List Shipment) (now : ℤ) : StatsSummary :=
  let delivered := db.filter (fun s => s.status == "delivered")
  let exc := db.filter (fun s => s.status == "exception")
  let on_time_count := (delivered.filter (onTimePred now)).length
  let on_time_rate : ℚ :=
    if delivered.length = 0 then 0
    else (on_time_count : ℚ) / (delivered.length : ℚ) * 100
  let transit_times := delivered.filterMap transitDays
  let avg_transit : ℚ :=
    if delivered.length = 0 then 0
    else if transit_times.length = 0 then 0
    else (transit_times.sum : ℚ) / (transit_times.length : ℚ)
  let groups := buildGroups carrierKey db
  { total_shipments := db.length,
    delivered := delivered.length,
    in_exception := exc.length,
    on_time_rate_pct := round1 on_time_rate,
    avg_transit_days := round1 avg_transit,
    by_carrier := groups.map (fun p =>
      (p.1, round1 (((p.2.filter (fun s => s.status == "delivered")).length : ℚ) /
                    (p.2.length : ℚ) * 100))) }

/-- Result of `get_route`: either the error payload carrying the known city
codes, or the route dictionary.  The error constructor has no distance,
duration or stops fields. -/
inductive RouteResult where
  | error (available : List String)
  | ok (origin destination : String) (distance_km duration_h : ℝ)
      (stops : List String)

/-- `math.radians`. -/
noncomputable def radians (d : ℝ) : ℝ := d * Real.pi / 180

/-- `LogisticsPlanner._haversine_distance`, transcribed from the source:
`delta_lat = radians(lat2 - lat1)`, `a = sin²(Δlat/2) + cos lat1 cos lat2
sin²(Δlon/2)`, `c = 2 asin √a`, result `6371 c`. -/
noncomputable def haversine_distance (c1 c2 : ℚ × ℚ) : ℝ :=
  let lat1 : ℝ := (c1.1 : ℝ)
  let lon1 : ℝ := (c1.2 : ℝ)
  let lat2 : ℝ := (c2.1 : ℝ)
  let lon2 : ℝ := (c2.2 : ℝ)
  let lat1_rad := radians lat1
  let lat2_rad := radians lat2
  let delta_lat := radians (lat2 - lat1)
  let delta_lon := radians (lon2 - lon1)
  let a := Real.sin (delta_lat / 2) ^ 2 +
           Real.cos lat1_rad * Real.cos lat2_rad * Real.sin (delta_lon / 2) ^ 2
  let c := 2 * Real.arcsin (Real.sqrt a)
  6371 * c

/-- Python `round(x, 1)` on the real idealisation of floats. -/
noncomputable def round1R (x : ℝ) : ℝ := ((Int.floor (x * 10 + 1 / 2) : ℤ) : ℝ) / 10

/-- `LogisticsPlanner.get_route`: unknown city codes give the error payload
listing the known codes; otherwise the Haversine distance (rounded to one
decimal), the duration at 80 km/h computed from the unrounded distance
(rounded to one decimal), and stops `[origin, destination]`. -/
noncomputable def get_route (origin destination : String) : RouteResult :=
  match CITY_COORDS.lookup origin, CITY_COORDS.lookup destination with
  | some c1, some c2 =>
      let distance_km := haversine_distance c1 c2
      let duration_h := distance_km / 80
      .ok origin destination (round1R distance_km) (round1R duration_h)
        [origin, destination]
  | _, _ => .error (CITY_COORDS.map Prod.fst)

/-! Spec-side formulas, written from the words of the specification's claims,
to be compared with the source embedding above. -/

/-- The claim's reading of a query filter: absent means no constraint, present
means equality with the filter value. -/
def specMatch (f : Option String) (v : String) : Bool :=
  match f with
  | none => true
  | some x => v == x

/-- The on-time rate as the specification states it: on-time count divided by
the number of delivered shipments WITH AN ETA SET, as a percentage rounded to
one decimal; `0` when there are no delivered shipments. -/
def claimOnTimeRate (db : List Shipment) (now : ℤ) : ℚ :=
  let delivered := db.filter (fun s => s.status == "delivered")
  let withEta := delivered.filter (fun s => s.eta.isSome)
  let onTime := delivered.filter (onTimePred now)
  if delivered.length = 0 then 0
  else round1 ((onTime.length : ℚ) / (withEta.length : ℚ) * 100)

/-- The on-time rate amended to match the source: the denominator is the
number of ALL delivered shipments, eta set or not. -/
def amendedOnTimeRate (db : List Shipment) (now : ℤ) : ℚ :=
  let delivered := db.filter (fun s => s.status == "delivered")
  let onTime := delivered.filter (onTimePred now)
  if delivered.length = 0 then 0
  else round1 ((onTime.length : ℚ) / (delivered.length : ℚ) * 100)

/-- `(eta - created_at)` TRUNCATED to whole days (rounded towards zero), the
specification's wording for the transit time of one shipment. -/
def truncDays (s : Shipment) : Option ℤ :=
  s.eta.map (fun t => Int.tdiv (t - s.created_at) secondsPerDay)

/-- The average transit time as the specification states it: average of the
truncated day counts over all delivered shipments with an eta set, rounded to
one decimal; `0` when none qualify. -/
def claimAvgTransitDays (db : List Shipment) : ℚ :=
  let days := (db.filter (fun s => s.status == "delivered")).filterMap truncDays
  if days.length = 0 then 0
  else round1 ((days.sum : ℚ) / (days.length : ℚ))

/-- The average transit time amended to match the source: day counts are
FLOORED (rounded towards negative infinity, Python `timedelta.days`), not
truncated. -/
def amendedAvgTransitDays (db : List Shipment) : ℚ :=
  let days := (db.filter (fun s => s.status == "delivered")).filterMap transitDays
  if days.length = 0 then 0
  else round1 ((days.sum : ℚ) / (days.length : ℚ))

/-- The Haversine formula as the specification's claim words it:
`a = sin²(Δlat/2) + cos(lat1)·cos(lat2)·sin²(Δlon/2)`, `c = 2·asin(√a)`,
`distance = 6371·c`, with the coordinates converted from degrees to radians
(so `Δlat` is the difference of the converted latitudes). -/
noncomputable def haversineSpec (c1 c2 : ℚ × ℚ) : ℝ :=
  let lat1 := radians (c1.1 : ℝ)
  let lon1 := radians (c1.2 : ℝ)
  let lat2 := radians (c2.1 : ℝ)
  let lon2 := radians (c2.2 : ℝ)
  let a := Real.sin ((lat2 - lat1) / 2) ^ 2 +
           Real.cos lat1 * Real.cos lat2 * Real.sin ((lon2 - lon1) / 2) ^ 2
  6371 * (2 * Real.arcsin (Real.sqrt a))

/-! Shared helper lemmas. -/

/-- Mapping a function that fixes every element of a list is the identity. -/
theorem map_eq_self_of_fix {α : Type} (l : List α) (f : α → α)
    (h : ∀ a ∈ l, f a = a) : l.map f = l := by
  rw [List.map_congr_left h]; simp

/-- Rounding zero to one decimal gives zero. -/
theorem round1_zero : round1 0 = 0 := by
  unfold round1
  norm_num

/-! Example records used to witness the hypotheses of the theorems below. -/

/-- A delivered shipment with an eta in the future of time `0`. -/
def exDelivEta : Shipment :=
  { id := "a1", origin := "NYC", destination := "LAX", weight_kg := 10,
    priority := "standard", status := "delivered", eta := some 100,
    carrier := some "fedex", tracking_id := some "t1", created_at := 0 }

/-- A delivered shipment with no eta. -/
def exDelivNoEta : Shipment :=
  { id := "a2", origin := "CHI", destination := "MIA", weight_kg := 5,
    priority := "express", status := "delivered", eta := none,
    carrier := none, tracking_id := none, created_at := 1 }

/-- Claim C2: for every record and every carrier in the fixed set,
`assign_carrier` validates the carrier, applies `assignUpd` to every row, and
`assignUpd` sets carrier, tracking id, `eta = now + eta_days` days and —
regardless of the prior status — status `picked_up` on the matching row,
leaving every other field and every other row unchanged.  `eta_days` ranges
over all of `ℤ`, negative values included. -/
theorem assign_carrier_spec (db : List Shipment) (sid carrier tracking_id : String)
    (eta_days now : ℤ) (hc : carrier ∈ CARRIERS) :
    assign_carrier db sid carrier tracking_id eta_days now =
      .ok (db.map (assignUpd sid carrier tracking_id (now + eta_days * secondsPerDay)))
  ∧ (∀ s : Shipment, s.id = sid →
      (assignUpd sid carrier tracking_id (now + eta_days * secondsPerDay) s).carrier
          = some carrier
      ∧ (assignUpd sid carrier tracking_id (now + eta_days * secondsPerDay) s).tracking_id
          = some tracking_id
      ∧ (assignUpd sid carrier tracking_id (now + eta_days * secondsPerDay) s).eta
          = some (now + eta_days * secondsPerDay)
      ∧ (assignUpd sid carrier tracking_id (now + eta_days * secondsPerDay) s).status
          = "picked_up"
      ∧ (assignUpd sid carrier tracking_id (now + eta_days * secondsPerDay) s).id = s.id
      ∧ (assignUpd sid carrier tracking_id (now + eta_days * secondsPerDay) s).origin
          = s.origin
      ∧ (assignUpd sid carrier tracking_id (now + eta_days * secondsPerDay) s).destination
          = s.destination
      ∧ (assignUpd sid carrier tracking_id (now + eta_days * secondsPerDay) s).weight_kg
          = s.weight_kg
      ∧ (assignUpd sid carrier tracking_id (now + eta_days * secondsPerDay) s).priority
          = s.priority
      ∧ (assignUpd sid carrier tracking_id (now + eta_days * secondsPerDay) s).created_at
          = s.created_at)
  ∧ (∀ s : Shipment, s.id ≠ sid →
      assignUpd sid carrier tracking_id (now + eta_days * secondsPerDay) s = s) := by
  refine ⟨?_, ?_, ?_⟩
  · simp [assign_carrier, hc]
  · intro s hs
    simp [assignUpd, hs]
  · intro s hs
    simp [assignUpd, hs]

/-- Witness for C2: a concrete carrier in the set, applied to a table holding
one shipment whose status is already `delivered`, with a negative `eta_days`. -/
theorem assign_carrier_spec_witness :
    "fedex" ∈ CARRIERS
  ∧ assign_carrier [exDelivEta] "a1" "fedex" "trk9" (-1) 0 =
      .ok ([exDelivEta].map (assignUpd "a1" "fedex" "trk9" (0 + (-1) * secondsPerDay))) :=
  ⟨by decide,
   (assign_carrier_spec [exDelivEta] "a1" "fedex" "trk9" (-1) 0 (by decide)).1⟩

/-- Claim C3: `create_shipment` with an invalid priority fails with the
invalid-argument error before any write — the resulting table is unchanged and
every subsequent query gives the same answer as before the call; with a valid
priority it appends exactly one record with status `pending`, the fresh id,
`created_at` set, and eta, carrier and tracking id all absent, preserving
uniqueness of ids when the generated id is fresh. -/
theorem create_shipment_spec (db : List Shipment) (origin destination : String)
    (w : ℚ) (priority newId : String) (now : ℤ) :
    (priority ∉ PRIORITIES →
       create_shipment db origin destination w priority newId now =
           .error "Invalid priority"
       ∧ runCreate db origin destination w priority newId now = db
       ∧ ∀ st pr, get_shipments (runCreate db origin destination w priority newId now) st pr
           = get_shipments db st pr)
  ∧ (priority ∈ PRIORITIES →
       create_shipment db origin destination w priority newId now =
           .ok (db ++ [mkShipment origin destination w priority newId now])
       ∧ (mkShipment origin destination w priority newId now).status = "pending"
       ∧ (mkShipment origin destination w priority newId now).id = newId
       ∧ (mkShipment origin destination w priority newId now).created_at = now
       ∧ (mkShipment origin destination w priority newId now).eta = none
       ∧ (mkShipment origin destination w priority newId now).carrier = none
       ∧ (mkShipment origin destination w priority newId now).tracking_id = none
       ∧ (newId ∉ db.map Shipment.id → (db.map Shipment.id).Nodup →
           ((db ++ [mkShipment origin destination w priority newId now]).map
              Shipment.id).Nodup)) := by
  constructor
  · intro hbad
    have herr : create_shipment db origin destination w priority newId now =
        .error "Invalid priority" := by
      simp [create_shipment, hbad]
    refine ⟨herr, ?_, ?_⟩
    · simp [runCreate, herr]
    · intro st pr
      simp [runCreate, herr]
  · intro hgood
    refine ⟨by simp [create_shipment, hgood], rfl, rfl, rfl, rfl, rfl, rfl, ?_⟩
    intro hfresh hnodup
    simp only [List.map_append, List.map_cons, List.map_nil]
    rw [List.nodup_append]
    refine ⟨hnodup, by simp, ?_⟩
    intro a ha hb
    simp only [mkShipment, List.mem_singleton, List.mem_cons, List.not_mem_nil] at hb
    rcases hb with hb | hb
    · subst hb; exact hfresh ha
    · cases hb

/-- Witness for C3: the invalid priority `same-day` fails and writes nothing;
the valid priority `standard` appends the expected record. -/
theorem create_shipment_spec_witness :
    create_shipment [exDelivEta] "NYC" "LAX" 10 "same-day" "id1" 5 =
        .error "Invalid priority"
  ∧ runCreate [exDelivEta] "NYC" "LAX" 10 "same-day" "id1" 5 = [exDelivEta]
  ∧ create_shipment [exDelivEta] "NYC" "LAX" 10 "standard" "id1" 5 =
        .ok ([exDelivEta] ++ [mkShipment "NYC" "LAX" 10 "standard" "id1" 5]) :=
  ⟨((create_shipment_spec [exDelivEta] "NYC" "LAX" 10 "same-day" "id1" 5).1
      (by decide)).1,
   ((create_shipment_spec [exDelivEta] "NYC" "LAX" 10 "same-day" "id1" 5).1
      (by decide)).2.1,
   ((create_shipment_spec [exDelivEta] "NYC" "LAX" 10 "standard" "id1" 5).2
      (by decide)).1⟩

/-- Claim C4: when no stored record carries the requested id, `assign_carrier`
(with a valid carrier) and `update_status` (with a valid status) succeed and
leave the table exactly as it was. -/
theorem missing_id_noop (db : List Shipment) (sid carrier tracking_id st : String)
    (eta_days now : ℤ) (hmiss : ∀ s ∈ db, s.id ≠ sid)
    (hc : carrier ∈ CARRIERS) (hst : st ∈ SHIPMENT_STATUSES) :
    assign_carrier db sid carrier tracking_id eta_days now = .ok db
  ∧ update_status db sid st = .ok db := by
  constructor
  · have hmap : db.map (assignUpd sid carrier tracking_id
        (now + eta_days * secondsPerDay)) = db := by
      apply map_eq_self_of_fix
      intro s hs
      simp [assignUpd, hmiss s hs]
    simp [assign_carrier, hc, hmap]
  · have hmap : db.map (statusUpd sid st) = db := by
      apply map_eq_self_of_fix
      intro s hs
      simp [statusUpd, hmiss s hs]
    simp [update_status, hst, hmap]

/-- Witness for C4: a table with one shipment whose id differs from the target
id; both operations return the table unchanged. -/
theorem missing_id_noop_witness :
    assign_carrier [exDelivEta] "zz" "ups" "trk" 3 0 = .ok [exDelivEta]
  ∧ update_status [exDelivEta] "zz" "in_transit" = .ok [exDelivEta] :=
  missing_id_noop [exDelivEta] "zz" "ups" "trk" "in_transit" 3 0
    (by decide) (by decide) (by decide)

/-- Claim C10 (implicit): an empty string supplied as the status or priority
filter of `get_shipments` behaves exactly as an absent filter — the Python
truthiness test skips it. -/
theorem empty_string_filter_spec (db : List Shipment) (st pr : Option String) :
    get_shipments db (some "") pr = get_shipments db none pr
  ∧ get_shipments db st (some "") = get_shipments db st none := by
  constructor
  · unfold get_shipments
    congr 1
  · unfold get_shipments
    congr 1

/-- A delivered shipment whose eta lies half a day before its creation time,
reachable because `assign_carrier` accepts negative `eta_days`. -/
def exDelivNegTransit : Shipment :=
  { id := "a3", origin := "BOS", destination := "SEA", weight_kg := 2,
    priority := "standard", status := "delivered", eta := some (-43200),
    carrier := some "ups", tracking_id := some "t3", created_at := 0 }

/-- Counterexample to claim C1 as stated: with one delivered shipment that is
on time and a second delivered shipment with no eta, the source divides by all
delivered shipments (rate 50.0) while the claim divides only by those with an
eta (rate 100.0). -/
theorem on_time_rate_counterexample :
    (delivery_stats [exDelivEta, exDelivNoEta] 0).on_time_rate_pct ≠
      claimOnTimeRate [exDelivEta, exDelivNoEta] 0 := by
  have h1 : (delivery_stats [exDelivEta, exDelivNoEta] 0).on_time_rate_pct = 50 := by
    simp [delivery_stats, onTimePred, transitDays, round1, exDelivEta, exDelivNoEta,
      buildGroups, groupStep, upsertGroup, carrierKey]
    norm_num
  have h2 : claimOnTimeRate [exDelivEta, exDelivNoEta] 0 = 100 := by
    simp [claimOnTimeRate, onTimePred, round1, exDelivEta, exDelivNoEta]
    norm_num
  rw [h1, h2]
  norm_num

/-- Claim C1 amended: `on_time_rate_pct` is the number of delivered shipments
with an eta that has not passed, divided by the number of ALL delivered
shipments (eta set or not), as a percentage rounded to one decimal, and `0`
when there are no delivered shipments. -/
theorem on_time_rate_amended (db : List Shipment) (now : ℤ) :
    (delivery_stats db now).on_time_rate_pct = amendedOnTimeRate db now := by
  unfold delivery_stats amendedOnTimeRate
  by_cases h : (db.filter (fun s => s.status == "delivered")).length = 0
  · simp [h, round1_zero]
  · simp [h]

/-- Counterexample to claim C9 as stated: a delivered shipment whose eta is
half a day before its creation has `timedelta.days = -1` (floor) in the
source, while truncation towards zero gives `0`; the averages differ
(`-1.0` against `0.0`). -/
theorem avg_transit_counterexample :
    (delivery_stats [exDelivNegTransit] 0).avg_transit_days ≠
      claimAvgTransitDays [exDelivNegTransit] := by
  have hf : Int.fdiv (-43200 : ℤ) secondsPerDay = -1 := by decide
  have ht : Int.tdiv (-43200 : ℤ) secondsPerDay = 0 := by decide
  have h1 : (delivery_stats [exDelivNegTransit] 0).avg_transit_days = -1 := by
    simp [delivery_stats, onTimePred, transitDays, round1, exDelivNegTransit,
      buildGroups, groupStep, upsertGroup, carrierKey, hf]
    norm_num
  have h2 : claimAvgTransitDays [exDelivNegTransit] = 0 := by
    simp [claimAvgTransitDays, truncDays, round1, exDelivNegTransit, ht]
    norm_num
  rw [h1, h2]
  norm_num

/-- Claim C9 amended: `avg_transit_days` averages `(eta - created_at)` FLOORED
to whole days (towards negative infinity, as Python `timedelta.days` does)
over the delivered shipments with an eta, rounded to one decimal, and is `0`
when none qualify. -/
theorem avg_transit_amended (db : List Shipment) (now : ℤ) :
    (delivery_stats db now).avg_transit_days = amendedAvgTransitDays db := by
  unfold delivery_stats amendedAvgTransitDays
  by_cases h1 : (db.filter (fun s => s.status == "delivered")).length = 0
  · have hnil : db.filter (fun s => s.status == "delivered") = [] :=
      List.length_eq_zero.mp h1
    simp [hnil, round1_zero]
  · by_cases h2 :
        ((db.filter (fun s => s.status == "delivered")).filterMap transitDays).length = 0
    · simp [h1, h2, round1_zero]
    · simp [h1, h2]

/-- Claim C5: with filters that are absent or non-empty strings,
`get_shipments` returns exactly the records satisfying all supplied filters
(conjunctively), ordered by `created_at` descending, and the empty list — not
an error — when nothing matches. -/
theorem get_shipments_spec (db : List Shipment) (st pr : Option String)
    (hst : st ≠ some "") (hpr : pr ≠ some "") :
    (get_shipments db st pr).Perm
      (db.filter (fun s => specMatch st s.status && specMatch pr s.priority))
  ∧ List.Sorted createdDesc (get_shipments db st pr)
  ∧ (db.filter (fun s => specMatch st s.status && specMatch pr s.priority) = [] →
      get_shipments db st pr = []) := by
  have hfil : db.filter (filterMatch st pr) =
      db.filter (fun s => specMatch st s.status && specMatch pr s.priority) := by
    apply List.filter_congr
    intro s _
    cases st with
    | none =>
        cases pr with
        | none => rfl
        | some y =>
            have hy : ¬(y == "") = true := by
              simp only [beq_iff_eq]
              intro h
              exact hpr (by rw [h])
            simp [filterMatch, specMatch, hy]
    | some x =>
        have hx : ¬(x == "") = true := by
          simp only [beq_iff_eq]
          intro h
          exact hst (by rw [h])
        cases pr with
        | none => simp [filterMatch, specMatch, hx]
        | some y =>
            have hy : ¬(y == "") = true := by
              simp only [beq_iff_eq]
              intro h
              exact hpr (by rw [h])
            simp [filterMatch, specMatch, hx, hy]
  refine ⟨?_, ?_, ?_⟩
  · unfold get_shipments
    rw [hfil]
    exact List.perm_insertionSort createdDesc _
  · exact List.sorted_insertionSort createdDesc _
  · intro hnil
    unfold get_shipments
    rw [hfil, hnil]
    rfl

/-- Witness for C5: concrete filters `delivered` and `express` over a
three-shipment table. -/
theorem get_shipments_spec_witness :
    (get_shipments [exDelivEta, exDelivNoEta, exDelivNegTransit]
        (some "delivered") (some "express")).Perm
      ([exDelivEta, exDelivNoEta, exDelivNegTransit].filter
        (fun s => specMatch (some "delivered") s.status &&
                  specMatch (some "express") s.priority))
  ∧ List.Sorted createdDesc
      (get_shipments [exDelivEta, exDelivNoEta, exDelivNegTransit]
        (some "delivered") (some "express"))
  ∧ ([exDelivEta, exDelivNoEta, exDelivNegTransit].filter
        (fun s => specMatch (some "delivered") s.status &&
                  specMatch (some "express") s.priority) = [] →
      get_shipments [exDelivEta, exDelivNoEta, exDelivNegTransit]
        (some "delivered") (some "express") = []) :=
  get_shipments_spec [exDelivEta, exDelivNoEta, exDelivNegTransit]
    (some "delivered") (some "express") (by decide) (by decide)

/-- Claim C6: when either city code is missing from the coordinate table,
`get_route` returns the error payload — a data value, not a raised exception —
carrying the list of known city codes; the error constructor has no distance,
duration or stops fields. -/
theorem get_route_unknown (o d : String)
    (h : CITY_COORDS.lookup o = none ∨ CITY_COORDS.lookup d = none) :
    get_route o d = .error (CITY_COORDS.map Prod.fst) := by
  rcases h with h | h
  · cases hd : CITY_COORDS.lookup d with
    | none => simp only [get_route, h, hd]
    | some c => simp only [get_route, h, hd]
  · cases ho : CITY_COORDS.lookup o with
    | none => simp only [get_route, h, ho]
    | some c => simp only [get_route, h, ho]

/-- Witness for C6: the unknown code `XXX` yields the error payload listing
all twenty known city codes. -/
theorem get_route_unknown_witness :
    get_route "XXX" "NYC" =
      .error ["NYC", "LAX", "CHI", "HOU", "PHX", "PHI", "SAN", "DAL", "SJC",
              "AUS", "DEN", "ATL", "BOS", "MIA", "SEA", "POR", "MIN", "DET",
              "CLE", "STL"] :=
  (get_route_unknown "XXX" "NYC" (Or.inl rfl)).trans (by rfl)

/-- `math.radians` distributes over subtraction. -/
theorem radians_sub (x y : ℝ) : radians (x - y) = radians x - radians y := by
  unfold radians
  ring

/-- The source's `_haversine_distance` computes exactly the Haversine formula
as the specification words it. -/
theorem haversine_eq_spec (c1 c2 : ℚ × ℚ) :
    haversine_distance c1 c2 = haversineSpec c1 c2 := by
  simp only [haversine_distance, haversineSpec, radians_sub]

/-- Claim C7: for city codes present in the table, `get_route` returns the
Haversine great-circle distance rounded to one decimal, the duration computed
from the UNROUNDED distance at 80 km/h rounded to one decimal, and stops
exactly `[origin, destination]`. -/
theorem get_route_known (o d : String) (c1 c2 : ℚ × ℚ)
    (h1 : CITY_COORDS.lookup o = some c1) (h2 : CITY_COORDS.lookup d = some c2) :
    get_route o d =
      .ok o d (round1R (haversineSpec c1 c2)) (round1R (haversineSpec c1 c2 / 80))
        [o, d] := by
  simp only [get_route, h1, h2, haversine_eq_spec]

/-- Witness for C7: the route from `NYC` to `LAX`. -/
theorem get_route_known_witness :
    get_route "NYC" "LAX" =
      .ok "NYC" "LAX"
        (round1R (haversineSpec (40.7128, -74.0060) (34.0522, -118.2437)))
        (round1R (haversineSpec (40.7128, -74.0060) (34.0522, -118.2437) / 80))
        ["NYC", "LAX"] :=
  get_route_known "NYC" "LAX" (40.7128, -74.0060) (34.0522, -118.2437) rfl rfl

/-- Unfolding `List.lookup` one cons cell at a time. -/
theorem lookup_cons_eval {β : Type} (a k : String) (b : β) (l : List (String × β)) :
    ((a, b) :: l).lookup k = if k = a then some b else l.lookup k := by
  by_cases h : k = a
  · simp [List.lookup, h]
  · have hb : (k == a) = false := beq_eq_false_iff_ne.mpr h
    simp [List.lookup, hb, h]

/-- Looking a key up after an upsert: the upserted key gains the appended
element, every other key is untouched. -/
theorem lookup_upsertGroup (m : List (String × List Shipment)) (k k2 : String)
    (s : Shipment) :
    (upsertGroup m k2 s).lookup k =
      if k = k2 then some (((m.lookup k).getD []) ++ [s]) else m.lookup k := by
  induction m with
  | nil =>
      by_cases h : k = k2 <;> simp [upsertGroup, lookup_cons_eval, h]
  | cons p rest ih =>
      obtain ⟨a, b⟩ := p
      by_cases hak : a = k2
      · subst hak
        rw [upsertGroup]
        simp only [if_pos rfl]
        by_cases hka : k = a
        · subst hka
          simp [lookup_cons_eval]
        · simp [lookup_cons_eval, hka]
      · rw [upsertGroup]
        rw [if_neg hak]
        by_cases hka : k = a
        · subst hka
          simp [lookup_cons_eval, hak]
        · simp [lookup_cons_eval, hka, ih]

/-- The invariant of the grouping loop: after folding a list into an
accumulator, the group of `k` is the group it had in the accumulator extended
by the matching elements of the list. -/
theorem lookup_foldl_groups (key : Shipment → Option String) (k : String)
    (l : List Shipment) :
    ∀ m : List (String × List Shipment),
      (l.foldl (groupStep key) m).lookup k =
        match m.lookup k with
        | some l0 => some (l0 ++ l.filter (fun s => key s == some k))
        | none =>
            if l.filter (fun s => key s == some k) = [] then none
            else some (l.filter (fun s => key s == some k)) := by
  induction l with
  | nil =>
      intro m
      cases hm : m.lookup k <;> simp [hm]
  | cons s t ih =>
      intro m
      rw [List.foldl_cons, ih (groupStep key m s)]
      cases hks : key s with
      | none =>
          have hstep : groupStep key m s = m := by simp [groupStep, hks]
          have hmatch : ((fun s => key s == some k) s) = false := by
            simp [hks]
          rw [hstep]
          simp only [List.filter_cons, hmatch]
          rfl
      | some k2 =>
          have hstep : groupStep key m s = upsertGroup m k2 s := by
            simp [groupStep, hks]
          rw [hstep, lookup_upsertGroup]
          by_cases hkk : k = k2
          · subst hkk
            have hmatch : ((fun s => key s == some k) s) = true := by
              simp [hks]
            rw [if_pos rfl]
            simp only [List.filter_cons, hmatch, if_pos]
            cases hm : m.lookup k with
            | some l0 => simp
            | none => simp
          · have hmatch : ((fun s => key s == some k) s) = false := by
              simp only [hks, beq_iff_eq, Option.some.injEq]
              exact decide_eq_false fun h => hkk h.symm
            rw [if_neg hkk]
            simp only [List.filter_cons, hmatch]
            rfl

/-- The group stored for `k` by `buildGroups` is exactly the sublist of
elements keyed `k`, absent when there are none. -/
theorem lookup_buildGroups (key : Shipment → Option String) (k : String)
    (l : List Shipment) :
    (buildGroups key l).lookup k =
      if l.filter (fun s => key s == some k) = [] then none
      else some (l.filter (fun s => key s == some k)) := by
  have h := lookup_foldl_groups key k l []
  rw [buildGroups, h]
  rfl

/-- Taking lengths of the groups commutes with lookup. -/
theorem lookup_groupCounts (g : List (String × List Shipment)) (k : String) :
    (groupCounts g).lookup k = (g.lookup k).map List.length := by
  induction g with
  | nil => rfl
  | cons p rest ih =>
      obtain ⟨a, b⟩ := p
      rw [groupCounts] at ih ⊢
      simp only [List.map_cons]
      rw [lookup_cons_eval, lookup_cons_eval]
      by_cases h : k = a
      · simp [h]
      · simp [h, ih]

/-- Lookup in the count dictionary built over a keyed grouping: the count of
elements keyed `k`, absent when zero. -/
theorem lookup_counts_buildGroups (key : Shipment → Option String) (k : String)
    (l : List Shipment) :
    (groupCounts (buildGroups key l)).lookup k =
      if (l.filter (fun s => key s == some k)).length = 0 then none
      else some (l.filter (fun s => key s == some k)).length := by
  rw [lookup_groupCounts, lookup_buildGroups]
  by_cases h : l.filter (fun s => key s == some k) = []
  · simp [h]
  · have hlen : (l.filter (fun s => key s == some k)).length ≠ 0 := by
      simpa [List.length_eq_zero] using h
    simp [h, hlen]

/-- Every record resolved by `getByIds` is a stored record bearing one of the
requested ids. -/
theorem mem_getByIds (db : List Shipment) (ids : List String) (s : Shipment)
    (h : s ∈ getByIds db ids) : s ∈ db ∧ s.id ∈ ids := by
  unfold getByIds at h
  obtain ⟨sid, hsid, hf⟩ := List.mem_filterMap.mp h
  refine ⟨List.mem_of_find?_eq_some hf, ?_⟩
  have hp := List.find?_some hf
  have : s.id = sid := by simpa using hp
  rwa [this]

/-- Claim C8: `optimize_batch` resolves only the requested ids that exist
(missing ids skipped without error), reports a total equal to the number of
resolved records, a carrier count map covering exactly the resolved records
with an assigned carrier, and a priority count map covering every resolved
record.  The hypothesis rules out the unreachable empty-string carrier, on
which Python truthiness and an assigned-carrier test differ. -/
theorem optimize_batch_spec (db : List Shipment) (ids : List String)
    (hc : ∀ s ∈ db, s.carrier ≠ some "") :
    (optimize_batch db ids).total_shipments = (getByIds db ids).length
  ∧ (∀ s ∈ getByIds db ids, s ∈ db ∧ s.id ∈ ids)
  ∧ (∀ c : String, (optimize_batch db ids).by_carrier.lookup c =
      (if ((getByIds db ids).filter (fun s => s.carrier == some c)).length = 0
       then none
       else some ((getByIds db ids).filter (fun s => s.carrier == some c)).length))
  ∧ (∀ p : String, (optimize_batch db ids).by_priority.lookup p =
      (if ((getByIds db ids).filter (fun s => s.priority == p)).length = 0
       then none
       else some ((getByIds db ids).filter (fun s => s.priority == p)).length)) := by
  refine ⟨rfl, mem_getByIds db ids, ?_, ?_⟩
  · intro c
    have hby : (optimize_batch db ids).by_carrier =
        groupCounts (buildGroups carrierKey (getByIds db ids)) := rfl
    rw [hby, lookup_counts_buildGroups]
    have hfil : (getByIds db ids).filter (fun s => carrierKey s == some c) =
        (getByIds db ids).filter (fun s => s.carrier == some c) := by
      apply List.filter_congr
      intro s hs
      have hsdb : s ∈ db := (mem_getByIds db ids s hs).1
      have hne : s.carrier ≠ some "" := hc s hsdb
      cases hcar : s.carrier with
      | none => simp [carrierKey, hcar]
      | some x =>
          have hx : x ≠ "" := by
            intro hx
            exact hne (by rw [hcar, hx])
          simp [carrierKey, hcar, hx]
    rw [hfil]
  · intro p
    have hby : (optimize_batch db ids).by_priority =
        groupCounts (buildGroups (fun s => some s.priority) (getByIds db ids)) := rfl
    rw [hby, lookup_counts_buildGroups]
    have hfil : (getByIds db ids).filter (fun s => (some s.priority : Option String) == some p) =
        (getByIds db ids).filter (fun s => s.priority == p) := by
      apply List.filter_congr
      intro s _
      simp
    rw [hfil]

/-- Witness for C8: a three-record table (two assigned carriers, one
unassigned), with one requested id missing from the table. -/
theorem optimize_batch_spec_witness :
    (optimize_batch [exDelivEta, exDelivNoEta, exDelivNegTransit]
        ["a1", "a2", "a3", "zz"]).total_shipments =
      (getByIds [exDelivEta, exDelivNoEta, exDelivNegTransit]
        ["a1", "a2", "a3", "zz"]).length
  ∧ (optimize_batch [exDelivEta, exDelivNoEta, exDelivNegTransit]
        ["a1", "a2", "a3", "zz"]).by_carrier.lookup "fedex" =
      (if ((getByIds [exDelivEta, exDelivNoEta, exDelivNegTransit]
              ["a1", "a2", "a3", "zz"]).filter
            (fun s => s.carrier == some "fedex")).length = 0
       then none
       else some ((getByIds [exDelivEta, exDelivNoEta, exDelivNegTransit]
              ["a1", "a2", "a3", "zz"]).filter
            (fun s => s.carrier == some "fedex")).length) :=
  ⟨(optimize_batch_spec [exDelivEta, exDelivNoEta, exDelivNegTransit]
      ["a1", "a2", "a3", "zz"] (by decide)).1,
   (optimize_batch_spec [exDelivEta, exDelivNoEta, exDelivNegTransit]
      ["a1", "a2", "a3", "zz"] (by decide)).2.2.1 "fedex"⟩

end LogisticsPlanner
